import Mathlib

/-!
Shallow embedding of the order-workflow state machine and the
inventory-dispatch engine of the PV-enterprise backend.

Sources embedded:
* `app/models/inventory.py`, `app/models/order.py`, `app/models/dispatch.py`,
  `app/models/approval.py`, `app/models/attachment.py` (data model);
* `app/api/v1/endpoints/dispatches.py` (`generate_dispatch_number`,
  `create_dispatch`);
* `app/api/v1/endpoints/orders.py` (`submit_order_for_approval`,
  `approve_order`, `reject_order`, `request_po_approval`,
  `approve_purchase_order`);
* `app/utils/order_tracking.py` (`add_order_action`).

Modelling conventions:
* UUID primary keys become `Nat` identifiers; `Numeric` money columns become
  `Int` (the decimal scale is irrelevant to every claim); `Integer` quantity
  columns become `Int` (stock can in principle be driven negative, which is
  exactly what one of the claims is about).
* A SQLAlchemy session is a snapshot `DB` of all tables.  Each endpoint is a
  function `DB → args → Except ApiError DB` (possibly with an extra result):
  an `Except.error` models `raise HTTPException`, which aborts the request
  before `db.commit()`, so the transaction is rolled back and the store is
  left exactly as it was — there is no successor state on the error path,
  mirroring the fact that in the source every `raise` occurs before any
  mutation of mapped objects.
* `HTTPException` detail strings are abstracted into the structured
  `ApiError` type; timestamps and user display names (used only inside
  free-text notes) are abstracted to fixed placeholder text.
* Lazy-loaded relationship collections follow SQLAlchemy semantics: a
  collection loaded once during a request is not refreshed by later queries
  in the same request, and creating a row by assigning its foreign-key
  column does not append it to an already-loaded collection.  Concretely, in
  `create_dispatch` the sums over `order_item.dispatch_items` always range
  over the rows that were persisted before the request began.
-/

namespace PVE

/-- Catalog item, `app/models/inventory.py` (table `inventory`).  The table
declares `CheckConstraint('stock_quantity >= 0', name='check_stock_non_negative')`,
embedded below as `check_stock_non_negative`.  Columns not read by any
endpoint under study are omitted. -/
structure Inventory where
  id : Nat
  sku : String
  description : Option String
  unit_price : Int
  stock_quantity : Int
  deriving DecidableEq

/-- Order header, `app/models/order.py` (table `orders`).  The fields
`price_list_id` and `discount_percentage` are assigned and cleared by the
endpoints (`mark_quotation_generated`, `reject_order`) but their column
declarations are missing from the model file in this snapshot; they are
modelled from the spec: "optional price-list reference, optional discount
percentage" (§3, Order). -/
structure Order where
  id : Nat
  order_number : String
  customer_id : Nat
  status : String
  workflow_stage : String
  price_list_id : Option Nat
  discount_percentage : Int
  notes : Option String
  deriving DecidableEq

/-- Order line, `app/models/order.py` (table `order_items`). -/
structure OrderItem where
  id : Nat
  order_id : Nat
  item_description : String
  quantity : Int
  inventory_id : Option Nat
  unit_price : Option Int
  status : String
  deriving DecidableEq

/-- Approval record, `app/models/approval.py` (table `approvals`). -/
structure Approval where
  id : Nat
  entity_type : String
  entity_id : Nat
  stage : String
  approver_id : Option Nat
  status : String
  comments : Option String
  deriving DecidableEq

/-- Attachment record, `app/models/attachment.py` (table `attachments`);
only the polymorphic key matters to the endpoints under study. -/
structure Attachment where
  id : Nat
  entity_type : String
  entity_id : Nat
  deriving DecidableEq

/-- Dispatch header, `app/models/dispatch.py` (table `dispatches`). -/
structure Dispatch where
  id : Nat
  dispatch_number : String
  order_id : Nat
  invoice_id : Option Nat
  status : String
  created_by : Nat
  deriving DecidableEq

/-- Dispatch line, `app/models/dispatch.py` (table `dispatch_items`).  The
`order_item_id` foreign key is used throughout `dispatches.py`
(`DispatchItem(order_item_id=...)`, `order_item.dispatch_items`) but its
column declaration is missing from the model file in this snapshot; it is
modelled from the spec: DispatchLine has a "referenced OrderLine" (§3). -/
structure DispatchItem where
  id : Nat
  dispatch_id : Nat
  order_item_id : Nat
  inventory_id : Nat
  quantity : Int
  deriving DecidableEq

/-- The persistent store: one snapshot of every table the embedded
endpoints touch. -/
structure DB where
  orders : List Order
  order_items : List OrderItem
  inventory : List Inventory
  approvals : List Approval
  attachments : List Attachment
  dispatches : List Dispatch
  dispatch_items : List DispatchItem
  deriving DecidableEq

/-- Structured rendering of the `HTTPException`s raised by the embedded
endpoints (detail strings abstracted; numeric payloads kept). -/
inductive ApiError where
  | forbidden
  | orderNotFound
  | stagePrecondition (required : String)
  | orderItemNotFound (order_item_id : Nat)
  | outstandingExceeded (requested outstanding : Int)
  | inventoryNotFound (inventory_id : Nat)
  | stockExceeded (available requested : Int)
  | notFullyDecoded
  | attachmentRequired
  deriving DecidableEq

/-- `CheckConstraint('stock_quantity >= 0')` on table `inventory`
(`app/models/inventory.py`): a state violating it cannot be committed by the
database. -/
def check_stock_non_negative (db : DB) : Bool :=
  db.inventory.all (fun i => decide (0 ≤ i.stock_quantity))

/-- Request line, `DispatchItemCreate` in `app/schemas/dispatch.py`
(pydantic validates `quantity > 0`). -/
structure DispatchItemCreate where
  order_item_id : Nat
  inventory_id : Nat
  quantity : Int
  deriving DecidableEq

/-- Request body, `DispatchCreate` in `app/schemas/dispatch.py` (carrier
metadata omitted: it is copied verbatim into free text). -/
structure DispatchCreate where
  order_id : Nat
  invoice_id : Option Nat
  status : String
  items : List DispatchItemCreate
  deriving DecidableEq

/-- `db.query(Order).filter(Order.id == oid).first()`. -/
def DB.findOrder (db : DB) (oid : Nat) : Option Order :=
  db.orders.find? (fun o => o.id == oid)

/-- `db.query(Inventory).filter(Inventory.id == i).first()`. -/
def DB.findInventory (db : DB) (i : Nat) : Option Inventory :=
  db.inventory.find? (fun inv => inv.id == i)

/-- `db.query(OrderItem).filter(OrderItem.id == i).first()`. -/
def DB.findOrderItem (db : DB) (i : Nat) : Option OrderItem :=
  db.order_items.find? (fun oi => oi.id == i)

/-- In-place mutation of the (unique-keyed) order row `oid`. -/
def DB.updateOrder (db : DB) (oid : Nat) (f : Order → Order) : DB :=
  { db with orders := db.orders.map (fun o => if o.id == oid then f o else o) }

/-- In-place mutation of the (unique-keyed) inventory row `i`. -/
def DB.updateInventory (db : DB) (i : Nat) (f : Inventory → Inventory) : DB :=
  { db with inventory := db.inventory.map (fun inv => if inv.id == i then f inv else inv) }

/-- In-place mutation of the (unique-keyed) order-item row `i`. -/
def DB.updateOrderItem (db : DB) (i : Nat) (f : OrderItem → OrderItem) : DB :=
  { db with order_items := db.order_items.map (fun oi => if oi.id == i then f oi else oi) }

/-- In-place mutation of the (unique-keyed) approval row `i`. -/
def DB.updateApproval (db : DB) (i : Nat) (f : Approval → Approval) : DB :=
  { db with approvals := db.approvals.map (fun a => if a.id == i then f a else a) }

/-- A fresh primary key for a new row (UUIDs abstracted to successive
naturals; any choice fresh for the table works, nothing depends on it). -/
def freshId (ids : List Nat) : Nat := ids.foldr max 0 + 1

/-- `add_order_action` in `app/utils/order_tracking.py`: appends a
timestamped action block to `order.notes` (timestamp and acting-user display
text abstracted to placeholders; `if order.notes:` is Python truthiness, so
an empty string counts as absent). -/
def add_order_action (o : Order) (action : String) (details : Option String) : Order :=
  let action_log :=
    "\n\n[ts] " ++ action ++ " by user" ++
      (match details with
       | some d => "\n" ++ d
       | none => "")
  match o.notes with
  | some n =>
      if n == "" then { o with notes := some action_log.trim }
      else { o with notes := some (n ++ action_log) }
  | none => { o with notes := some action_log.trim }

/-- Left-pads a numeral to four digits: Python `f"{n:04d}"`. -/
def pad4 (n : Nat) : String :=
  let s := toString n
  String.mk (List.replicate (4 - s.length) '0') ++ s

/-- `generate_dispatch_number` in `dispatches.py`: counts existing dispatch
numbers carrying this year's `DISP-<year>-` marker and formats the next
sequence value (the current date's year is passed in as a parameter). -/
def generate_dispatch_number (db : DB) (year : Nat) : String :=
  let px := "DISP-" ++ toString year ++ "-"
  let count := (db.dispatches.filter (fun d => px.isPrefixOf d.dispatch_number)).length
  px ++ pad4 (count + 1)

/-- `sum(di.quantity for di in order_item.dispatch_items)`: total quantity of
the persisted dispatch lines referencing order item `oiId`. -/
def dispatchedQty (db : DB) (oiId : Nat) : Int :=
  ((db.dispatch_items.filter (fun di => di.order_item_id == oiId)).map
    (fun di => di.quantity)).sum

/-- Validation of one requested line against the pre-request snapshot
(`create_dispatch`, first `for` loop): the order item must belong to the
order, the requested quantity must not exceed its outstanding quantity, the
inventory row must exist and cover the requested quantity. -/
def validateDispatchItem (db : DB) (order_id : Nat) (it : DispatchItemCreate) :
    Option ApiError :=
  match db.order_items.find?
      (fun oi => oi.id == it.order_item_id && oi.order_id == order_id) with
  | none => some (.orderItemNotFound it.order_item_id)
  | some order_item =>
      let dispatched_qty := dispatchedQty db order_item.id
      let outstanding_qty := order_item.quantity - dispatched_qty
      if it.quantity > outstanding_qty then
        some (.outstandingExceeded it.quantity outstanding_qty)
      else
        match db.findInventory it.inventory_id with
        | none => some (.inventoryNotFound it.inventory_id)
        | some inventory =>
            if it.quantity > inventory.stock_quantity then
              some (.stockExceeded inventory.stock_quantity it.quantity)
            else none

/-- The whole validation loop: first failing line wins; every line is checked
against the same pre-request snapshot `db` (no mutation has happened yet). -/
def validateDispatchItems (db : DB) (order_id : Nat) :
    List DispatchItemCreate → Option ApiError
  | [] => none
  | it :: rest =>
      match validateDispatchItem db order_id it with
      | some e => some e
      | none => validateDispatchItems db order_id rest

/-- One iteration of the mutation loop of `create_dispatch`: insert the
`DispatchItem` row, decrement the (identity-mapped, hence cumulatively
updated) inventory row, and recompute the order item's status.  `db0` is the
pre-request snapshot: `order_item.dispatch_items` was loaded during
validation and is not refreshed, and the rows inserted by this request set
the foreign key directly, so `total_dispatched` counts only pre-request
dispatch lines plus the current line. -/
def applyDispatchItem (db0 : DB) (dispatch_id di_id : Nat) (db : DB)
    (it : DispatchItemCreate) : DB :=
  let db := { db with dispatch_items := db.dispatch_items ++
      [({ id := di_id, dispatch_id := dispatch_id,
          order_item_id := it.order_item_id, inventory_id := it.inventory_id,
          quantity := it.quantity } : DispatchItem)] }
  let db := db.updateInventory it.inventory_id
      (fun inv => { inv with stock_quantity := inv.stock_quantity - it.quantity })
  let total_dispatched := dispatchedQty db0 it.order_item_id + it.quantity
  db.updateOrderItem it.order_item_id (fun oi =>
    { oi with status :=
        if total_dispatched ≥ oi.quantity then "completed"
        else if total_dispatched > 0 then "partial"
        else "pending" })

/-- The mutation loop over all requested lines, threading the session state
and numbering the inserted rows. -/
def applyDispatchItems (db0 : DB) (dispatch_id : Nat) :
    DB → Nat → List DispatchItemCreate → DB
  | db, _, [] => db
  | db, di_id, it :: rest =>
      applyDispatchItems db0 dispatch_id
        (applyDispatchItem db0 dispatch_id di_id db it) (di_id + 1) rest

/-- The effect of one mutation-loop iteration on a single order-item row:
the row referenced by the request line gets its status recomputed from the
pre-request dispatched total plus the current line's quantity. -/
def itemStep (db0 : DB) (it : DispatchItemCreate) (oi : OrderItem) : OrderItem :=
  if oi.id == it.order_item_id then
    { oi with status :=
        if dispatchedQty db0 it.order_item_id + it.quantity ≥ oi.quantity then
          "completed"
        else if dispatchedQty db0 it.order_item_id + it.quantity > 0 then
          "partial"
        else "pending" }
  else oi

/-- The effect of one mutation-loop iteration on a single inventory row: the
referenced catalog item loses the line's quantity. -/
def invStep (it : DispatchItemCreate) (v : Inventory) : Inventory :=
  if v.id == it.inventory_id then
    { v with stock_quantity := v.stock_quantity - it.quantity }
  else v

/-- The write phase of `create_dispatch` (source lines 105–176), reached
only after every line passed validation: persist the dispatch header,
run the mutation loop, and roll the order status up from the recomputed
item statuses.  Returns the store the request hands to `db.commit()`
together with the new dispatch id.  The database accepts that store only
when its declared constraints hold of it — in particular
`check_stock_non_negative`; per-line validation does not guarantee this
(it never aggregates a request's lines per catalog item), so a request
whose per-item totals exceed stock reaches commit with a negative stock
and is aborted by an integrity error, rolling everything back.  Theorems
about genuine successes therefore assume and conclude
`check_stock_non_negative` of this store; the code-bug exhibits display
exactly the stores the database refuses. -/
def createDispatchCommit (db : DB) (year user_id : Nat)
    (dispatch_data : DispatchCreate) : DB × Nat :=
  let dispatch_id := freshId (db.dispatches.map (fun d => d.id))
  let db1 : DB := { db with dispatches := db.dispatches ++
      [({ id := dispatch_id,
          dispatch_number := generate_dispatch_number db year,
          order_id := dispatch_data.order_id,
          invoice_id := dispatch_data.invoice_id,
          status := dispatch_data.status,
          created_by := user_id } : Dispatch)] }
  let db2 := applyDispatchItems db dispatch_id db1
      (freshId (db.dispatch_items.map (fun di => di.id)))
      dispatch_data.items
  let all_order_items := db2.order_items.filter
      (fun oi => oi.order_id == dispatch_data.order_id)
  let all_completed := all_order_items.all
      (fun oi => oi.status == "completed")
  let any_partial := all_order_items.any
      (fun oi => oi.status == "partial" || oi.status == "completed")
  let db3 := db2.updateOrder dispatch_data.order_id
      (fun o => add_order_action o "Dispatch Created" (some "items"))
  let db4 :=
    if all_completed then
      db3.updateOrder dispatch_data.order_id (fun o =>
        add_order_action
          { o with status := "payment_pending",
                   workflow_stage := "payment_pending" }
          "All Items Dispatched"
          (some "All order items have been dispatched."))
    else if any_partial then
      db3.updateOrder dispatch_data.order_id
        (fun o => { o with status := "partially_dispatched" })
    else db3
  (db4, dispatch_id)

/-- `create_dispatch` in `app/api/v1/endpoints/dispatches.py`.  Returns the
committed store and the new dispatch id, or the error raised before any
write.  `role_name`/`user_id` stand for `current_user`; `year` for
`date.today().year`. -/
def create_dispatch (db : DB) (year : Nat) (role_name : String) (user_id : Nat)
    (dispatch_data : DispatchCreate) : Except ApiError (DB × Nat) :=
  if ¬ (role_name == "inventory_admin" || role_name == "executive") then
    .error .forbidden
  else
    match db.findOrder dispatch_data.order_id with
    | none => .error .orderNotFound
    | some order =>
        if order.workflow_stage != "inventory_check" then
          .error (.stagePrecondition "inventory_check")
        else
          match validateDispatchItems db dispatch_data.order_id dispatch_data.items with
          | some e => .error e
          | none => .ok (createDispatchCommit db year user_id dispatch_data)

/-- `order.items`: the order-items relationship of an order. -/
def order_items_of (db : DB) (oid : Nat) : List OrderItem :=
  db.order_items.filter (fun oi => oi.order_id == oid)

/-- `Order.total_items` property (`app/models/order.py`). -/
def total_items (db : DB) (oid : Nat) : Nat :=
  (order_items_of db oid).length

/-- `Order.decoded_items_count` property (`app/models/order.py`):
`sum(1 for item in self.items if item.inventory_id is not None)`. -/
def decoded_items_count (db : DB) (oid : Nat) : Nat :=
  ((order_items_of db oid).filter (fun oi => oi.inventory_id.isSome)).length

/-- `Order.is_fully_decoded` property (`app/models/order.py`):
`self.total_items > 0 and self.decoded_items_count == self.total_items`. -/
def is_fully_decoded (db : DB) (oid : Nat) : Bool :=
  decide (0 < total_items db oid) && (decoded_items_count db oid == total_items db oid)

/-- The lookup shared by `approve_order` and `reject_order`: first approval
row with `entity_type == "order"`, `entity_id == oid`, `status == "pending"`
(note: no filter on `stage`). -/
def findPendingApproval (db : DB) (oid : Nat) : Option Approval :=
  db.approvals.find? (fun a =>
    a.entity_type == "order" && a.entity_id == oid && a.status == "pending")

/-- `submit_order_for_approval` in `app/api/v1/endpoints/orders.py`. -/
def submit_order_for_approval (db : DB) (order_id : Nat) (_uid : Nat) :
    Except ApiError DB :=
  match db.findOrder order_id with
  | none => .error .orderNotFound
  | some _ =>
      if ¬ is_fully_decoded db order_id then .error .notFullyDecoded
      else
        let db := db.updateOrder order_id (fun o =>
          { o with workflow_stage := "decoding_approval",
                   status := "pending_approval" })
        let db := { db with approvals := db.approvals ++
            [({ id := freshId (db.approvals.map (fun (a : Approval) => a.id)),
                entity_type := "order", entity_id := order_id,
                stage := "decoding_approval", approver_id := none,
                status := "pending", comments := none } : Approval)] }
        .ok (db.updateOrder order_id (fun o =>
          add_order_action o "Submitted for Approval"
            (some "Order submitted for executive approval")))

/-- `approve_order` in `app/api/v1/endpoints/orders.py`: resolves the first
pending approval for the order (if any), then advances the workflow stage
when — and only when — the current stage is one of the three approval-gated
stages; in every other stage the handler still returns success with the
stage and status untouched. -/
def approve_order (db : DB) (order_id uid : Nat) (comments : Option String) :
    Except ApiError DB :=
  match db.findOrder order_id with
  | none => .error .orderNotFound
  | some order =>
      let db :=
        match findPendingApproval db order_id with
        | some approval =>
            db.updateApproval approval.id (fun a =>
              { a with approver_id := some uid, status := "approved",
                       comments := comments })
        | none => db
      let next :=
        if order.workflow_stage == "decoding_approval" then
          some ("quotation", "approved", "Decoding")
        else if order.workflow_stage == "quotation_generated" then
          some ("waiting_purchase_order", "quote_sent", "Quotation")
        else if order.workflow_stage == "po_approval" then
          some ("inventory_check", "approved", "Purchase Order")
        else none
      let db := db.updateOrder order_id (fun o =>
        let o :=
          match next with
          | some (ws, st, _) => { o with workflow_stage := ws, status := st }
          | none => o
        let stage_name := match next with | some (_, _, nm) => nm | none => ""
        add_order_action o (stage_name ++ " Approved") comments)
      .ok db

/-- Body of the price-reset loop of `reject_order` (source lines 646–652):
on the quotation-rejection path, each of the order's decoded lines gets its
unit price re-read from the catalog's current standard price (the session
`db` is the one the request started with; the preceding approval update does
not touch the inventory table). -/
def resetItemPrice (db : DB) (order_id : Nat) (item : OrderItem) : OrderItem :=
  if item.order_id == order_id then
    match item.inventory_id with
    | some invId =>
        match db.findInventory invId with
        | some inventory => { item with unit_price := some inventory.unit_price }
        | none => item
    | none => item
  else item

/-- `reject_order` in `app/api/v1/endpoints/orders.py`: resolves the first
pending approval as rejected (if any); at stage `quotation_generated` it
returns the order to `quotation`, clears the price list and discount and
resets each decoded line's price to the catalog's current price; at every
other stage it sends the order back to `decoding`/`draft` with no stage
guard at all. -/
def reject_order (db : DB) (order_id uid : Nat) (reason : String) :
    Except ApiError DB :=
  match db.findOrder order_id with
  | none => .error .orderNotFound
  | some order =>
      let db1 :=
        match findPendingApproval db order_id with
        | some approval =>
            db.updateApproval approval.id (fun a =>
              { a with approver_id := some uid, status := "rejected",
                       comments := some reason })
        | none => db
      if order.workflow_stage == "quotation_generated" then
        let db2 := db1.updateOrder order_id (fun o =>
          { o with status := "approved", workflow_stage := "quotation",
                   price_list_id := none, discount_percentage := 0 })
        let db3 := { db2 with
          order_items := db2.order_items.map (resetItemPrice db order_id) }
        .ok (db3.updateOrder order_id (fun o =>
          add_order_action o "Order Rejected" (some reason)))
      else
        let db2 := db1.updateOrder order_id (fun o =>
          { o with status := "draft", workflow_stage := "decoding" })
        .ok (db2.updateOrder order_id (fun o =>
          add_order_action o "Order Rejected" (some reason)))

/-- `request_po_approval` in `app/api/v1/endpoints/orders.py`. -/
def request_po_approval (db : DB) (order_id : Nat) (_uid : Nat) (role_name : String) :
    Except ApiError DB :=
  if ¬ (role_name == "sales_rep" || role_name == "executive") then
    .error .forbidden
  else
    match db.findOrder order_id with
    | none => .error .orderNotFound
    | some order =>
        if order.workflow_stage != "waiting_purchase_order" then
          .error (.stagePrecondition "waiting_purchase_order")
        else
          let attachment_count := (db.attachments.filter (fun a =>
            a.entity_type == "order" && a.entity_id == order_id)).length
          if attachment_count == 0 then .error .attachmentRequired
          else
            let db := { db with approvals := db.approvals ++
                [({ id := freshId (db.approvals.map (fun (a : Approval) => a.id)),
                    entity_type := "order", entity_id := order_id,
                    stage := "po_approval", approver_id := none,
                    status := "pending", comments := none } : Approval)] }
            .ok (db.updateOrder order_id (fun o =>
              add_order_action
                { o with workflow_stage := "po_approval",
                         status := "pending_po_approval" }
                "Purchase Order Approval Requested" (some "PO document uploaded")))

/-- `approve_purchase_order` in `app/api/v1/endpoints/orders.py`: guarded on
stage `po_approval`; resolves the first pending approval with
`stage == "po_approval"` (if any; silently skipped otherwise), resets every
decoded order item's status to `pending`, and advances the order to
`inventory_check`/`po_approved`. -/
def approve_purchase_order (db : DB) (order_id uid : Nat) :
    Except ApiError DB :=
  match db.findOrder order_id with
  | none => .error .orderNotFound
  | some order =>
      if order.workflow_stage != "po_approval" then
        .error (.stagePrecondition "po_approval")
      else
        let db :=
          match db.approvals.find? (fun a =>
              a.entity_type == "order" && a.entity_id == order_id &&
              a.stage == "po_approval" && a.status == "pending") with
          | some approval =>
              db.updateApproval approval.id (fun a =>
                { a with status := "approved", approver_id := some uid })
          | none => db
        let db := { db with order_items := db.order_items.map (fun (item : OrderItem) =>
          if item.order_id == order_id && item.inventory_id.isSome then
            { item with status := "pending" }
          else item) }
        .ok (db.updateOrder order_id (fun o =>
          add_order_action
            { o with workflow_stage := "inventory_check",
                     status := "po_approved" }
            "Purchase Order Approved"
            (some "Order items marked as pending for dispatch")))

/-- Committed store of a dispatch request, `none` when the request was
rejected (the transaction is rolled back, so there is no successor state). -/
def resultDB : Except ApiError (DB × Nat) → Option DB
  | .ok (db, _) => some db
  | .error _ => none

/-- Committed store of an order-workflow request, `none` on rejection. -/
def resultDBo : Except ApiError DB → Option DB
  | .ok db => some db
  | .error _ => none

/-- Total quantity requested for one catalog item across all lines of one
dispatch request. -/
def requestedForInventory (items : List DispatchItemCreate) (i : Nat) : Int :=
  ((items.filter (fun it => it.inventory_id == i)).map (fun it => it.quantity)).sum

/-- The two `QuantityViolation` rejections of §7. -/
def ApiError.isQuantityViolation : ApiError → Bool
  | .outstandingExceeded _ _ => true
  | .stockExceeded _ _ => true
  | _ => false

/-- A request line whose quantity exceeds the outstanding quantity
(ordered minus already dispatched) of its order item. -/
def exceedsOutstanding (db : DB) (order_id : Nat) (it : DispatchItemCreate) : Prop :=
  ∃ oi, db.order_items.find?
      (fun x => x.id == it.order_item_id && x.order_id == order_id) = some oi ∧
    it.quantity > oi.quantity - dispatchedQty db oi.id

/-- A request line whose quantity exceeds the referenced catalog item's
stock. -/
def exceedsStock (db : DB) (it : DispatchItemCreate) : Prop :=
  ∃ inv, db.findInventory it.inventory_id = some inv ∧
    it.quantity > inv.stock_quantity

/-- A request line whose order-item and catalog-item references both
resolve. -/
def lineRefsResolve (db : DB) (order_id : Nat) (it : DispatchItemCreate) : Prop :=
  (∃ oi, db.order_items.find?
      (fun x => x.id == it.order_item_id && x.order_id == order_id) = some oi) ∧
  (∃ inv, db.findInventory it.inventory_id = some inv)

section ConcreteStores

/-- Catalog item 100 with five units on hand. -/
def invStock5 : Inventory :=
  { id := 100, sku := "X", description := none, unit_price := 50, stock_quantity := 5 }

/-- Catalog item 100 with a hundred units on hand. -/
def invStock100 : Inventory :=
  { id := 100, sku := "X", description := none, unit_price := 50, stock_quantity := 100 }

/-- An order sitting in stage `inventory_check`. -/
def orderInvCheck : Order :=
  { id := 1, order_number := "ORD-2025-0001", customer_id := 7,
    status := "po_approved", workflow_stage := "inventory_check",
    price_list_id := none, discount_percentage := 0, notes := none }

/-- A ten-unit order line decoded against catalog item 100, nothing
dispatched yet. -/
def itemQty10 : OrderItem :=
  { id := 10, order_id := 1, item_description := "widget", quantity := 10,
    inventory_id := some 100, unit_price := some 50, status := "pending" }

/-- Store for the stock-invariant failing input: stock 5, order line of 10. -/
def dbStock5 : DB :=
  { orders := [orderInvCheck], order_items := [itemQty10],
    inventory := [invStock5], approvals := [], attachments := [],
    dispatches := [], dispatch_items := [] }

/-- Store with ample stock: stock 100, order line of 10. -/
def dbStock100 : DB :=
  { orders := [orderInvCheck], order_items := [itemQty10],
    inventory := [invStock100], approvals := [], attachments := [],
    dispatches := [], dispatch_items := [] }

/-- Request with two lines, each for five units of the same order line and
the same catalog item. -/
def reqTwice5 : DispatchCreate :=
  { order_id := 1, invoice_id := none, status := "pending",
    items := [⟨10, 100, 5⟩, ⟨10, 100, 5⟩] }

/-- Request with two lines, each for six units of the same order line. -/
def reqTwice6 : DispatchCreate :=
  { order_id := 1, invoice_id := none, status := "pending",
    items := [⟨10, 100, 6⟩, ⟨10, 100, 6⟩] }

/-- Request with no lines at all (the schema puts no lower bound on the
number of lines, so this passes validation vacuously). -/
def reqEmpty : DispatchCreate :=
  { order_id := 1, invoice_id := none, status := "pending", items := [] }

/-- A second ten-unit order line on the same order, also decoded against
catalog item 100. -/
def itemQty10b : OrderItem :=
  { id := 11, order_id := 1, item_description := "gadget", quantity := 10,
    inventory_id := some 100, unit_price := some 50, status := "pending" }

/-- Store with two distinct order lines both decoded against catalog item
100, which has only five units on hand. -/
def dbTwoItemsStock5 : DB :=
  { orders := [orderInvCheck], order_items := [itemQty10, itemQty10b],
    inventory := [invStock5], approvals := [], attachments := [],
    dispatches := [], dispatch_items := [] }

/-- Request with two five-unit lines on two distinct order lines, both
drawing on catalog item 100 (duplicate-free in order-item references). -/
def reqTwoItems5 : DispatchCreate :=
  { order_id := 1, invoice_id := none, status := "pending",
    items := [⟨10, 100, 5⟩, ⟨11, 100, 5⟩] }

/-- Request with a single six-unit line (Scenario A's dispatch). -/
def reqSix : DispatchCreate :=
  { order_id := 1, invoice_id := none, status := "pending",
    items := [⟨10, 100, 6⟩] }

/-- Request with a single five-unit line (Scenario C's dispatch). -/
def reqFive : DispatchCreate :=
  { order_id := 1, invoice_id := none, status := "pending",
    items := [⟨10, 100, 5⟩] }

/-- Store where six of the ten units are already dispatched, so the
outstanding quantity is four (Scenario C). -/
def dbOutstanding4 : DB :=
  { orders := [orderInvCheck], order_items := [itemQty10],
    inventory := [invStock100], approvals := [], attachments := [],
    dispatches := [{ id := 1, dispatch_number := "DISP-2025-0001",
                     order_id := 1, invoice_id := none, status := "pending",
                     created_by := 1 }],
    dispatch_items := [{ id := 1, dispatch_id := 1, order_item_id := 10,
                         inventory_id := 100, quantity := 6 }] }

/-- A pending decoding approval record for order 1. -/
def pendingApproval3 : Approval :=
  { id := 3, entity_type := "order", entity_id := 1,
    stage := "decoding_approval", approver_id := none, status := "pending",
    comments := none }

/-- Store with an order in a non-gated stage (`inventory_check`) that still
carries a pending approval record. -/
def dbPendingAtInvCheck : DB :=
  { orders := [orderInvCheck], order_items := [itemQty10],
    inventory := [invStock100], approvals := [pendingApproval3],
    attachments := [], dispatches := [], dispatch_items := [] }

/-- An order sitting in stage `quotation_generated` with a price list and a
discount applied. -/
def orderQuotGen : Order :=
  { id := 1, order_number := "ORD-2025-0001", customer_id := 7,
    status := "pending_quotation_approval",
    workflow_stage := "quotation_generated", price_list_id := some 4,
    discount_percentage := 10, notes := none }

/-- A line decoded at price-list price 999 against catalog item 100 (whose
standard price is 50). -/
def itemPricedAt999 : OrderItem :=
  { id := 10, order_id := 1, item_description := "widget", quantity := 10,
    inventory_id := some 100, unit_price := some 999, status := "decoded" }

/-- Store for the quotation-rejection round trip. -/
def dbQuotGen : DB :=
  { orders := [orderQuotGen], order_items := [itemPricedAt999],
    inventory := [invStock100], approvals := [], attachments := [],
    dispatches := [], dispatch_items := [] }

/-- An order sitting in stage `po_approval`. -/
def orderPoApproval : Order :=
  { id := 1, order_number := "ORD-2025-0001", customer_id := 7,
    status := "pending_po_approval", workflow_stage := "po_approval",
    price_list_id := none, discount_percentage := 0, notes := none }

/-- Store with an order in `po_approval` and no approval record at all. -/
def dbPoApprovalNoPending : DB :=
  { orders := [orderPoApproval], order_items := [itemQty10],
    inventory := [invStock100], approvals := [], attachments := [],
    dispatches := [], dispatch_items := [] }

/-- An order sitting in stage `waiting_purchase_order`. -/
def orderWaitingPO : Order :=
  { id := 1, order_number := "ORD-2025-0001", customer_id := 7,
    status := "quote_sent", workflow_stage := "waiting_purchase_order",
    price_list_id := none, discount_percentage := 0, notes := none }

/-- Store with an order waiting for its purchase order and exactly one
attachment of entity type `order` for it. -/
def dbWaitingPOWithAttachment : DB :=
  { orders := [orderWaitingPO], order_items := [itemQty10],
    inventory := [invStock100],
    approvals := [], attachments := [{ id := 1, entity_type := "order", entity_id := 1 }],
    dispatches := [], dispatch_items := [] }

/-- An order with no lines at all, still in `order_request`. -/
def orderNoLines : Order :=
  { id := 1, order_number := "ORD-2025-0001", customer_id := 7,
    status := "draft", workflow_stage := "order_request",
    price_list_id := none, discount_percentage := 0, notes := none }

/-- Store whose single order has zero order lines. -/
def dbNoLines : DB :=
  { orders := [orderNoLines], order_items := [], inventory := [],
    approvals := [], attachments := [], dispatches := [],
    dispatch_items := [] }

end ConcreteStores

/-! General lemmas about the row-update combinators. -/

/-- `find?` commutes with a row-wise update that does not change whether a
row matches the search predicate. -/
theorem find?_map_of_pred_inv {α : Type} (g : α → α) (p : α → Bool)
    (hp : ∀ a, p (g a) = p a) (l : List α) :
    (l.map g).find? p = (l.find? p).map g := by
  induction l with
  | nil => rfl
  | cons a t ih =>
      by_cases h : p a = true
      · simp [List.find?_cons, hp, h]
      · simp only [Bool.not_eq_true] at h
        simp [List.find?_cons, hp, h, ih]

theorem itemStep_id (db0 : DB) (it : DispatchItemCreate) (x : OrderItem) :
    (itemStep db0 it x).id = x.id := by
  unfold itemStep; split <;> rfl

theorem itemStep_order_id (db0 : DB) (it : DispatchItemCreate) (x : OrderItem) :
    (itemStep db0 it x).order_id = x.order_id := by
  unfold itemStep; split <;> rfl

theorem itemStep_quantity (db0 : DB) (it : DispatchItemCreate) (x : OrderItem) :
    (itemStep db0 it x).quantity = x.quantity := by
  unfold itemStep; split <;> rfl

theorem invStep_id (it : DispatchItemCreate) (v : Inventory) :
    (invStep it v).id = v.id := by
  unfold invStep; split <;> rfl

/-- `add_order_action` only rewrites the free-text notes. -/
theorem add_order_action_eq_notes (o : Order) (a : String) (d : Option String) :
    ∃ n, add_order_action o a d = { o with notes := n } := by
  unfold add_order_action
  cases o.notes with
  | none => exact ⟨_, rfl⟩
  | some s =>
      by_cases h : (s == "") = true
      · simp only [h, if_true]; exact ⟨_, rfl⟩
      · simp only [Bool.not_eq_true] at h
        simp only [h, Bool.false_eq_true, if_false]; exact ⟨_, rfl⟩

/-! Decomposition of the `create_dispatch` mutation loop. -/

theorem applyDispatchItem_order_items (db0 : DB) (did k : Nat) (db : DB)
    (it : DispatchItemCreate) :
    (applyDispatchItem db0 did k db it).order_items
      = db.order_items.map (itemStep db0 it) := rfl

theorem applyDispatchItem_inventory (db0 : DB) (did k : Nat) (db : DB)
    (it : DispatchItemCreate) :
    (applyDispatchItem db0 did k db it).inventory
      = db.inventory.map (invStep it) := rfl

theorem applyDispatchItems_orders (db0 : DB) (did : Nat)
    (items : List DispatchItemCreate) :
    ∀ (db : DB) (k : Nat),
      (applyDispatchItems db0 did db k items).orders = db.orders := by
  induction items with
  | nil => intro db k; rfl
  | cons it rest ih => intro db k; exact ih _ _

theorem applyDispatchItems_order_items (db0 : DB) (did : Nat)
    (items : List DispatchItemCreate) :
    ∀ (db : DB) (k : Nat),
      (applyDispatchItems db0 did db k items).order_items
        = db.order_items.map
            (fun x => items.foldl (fun y it => itemStep db0 it y) x) := by
  induction items with
  | nil => intro db k; simp [applyDispatchItems]
  | cons it rest ih =>
      intro db k
      have h1 : applyDispatchItems db0 did db k (it :: rest)
          = applyDispatchItems db0 did (applyDispatchItem db0 did k db it)
              (k + 1) rest := rfl
      rw [h1, ih, applyDispatchItem_order_items, List.map_map]
      rfl

theorem applyDispatchItems_inventory (db0 : DB) (did : Nat)
    (items : List DispatchItemCreate) :
    ∀ (db : DB) (k : Nat),
      (applyDispatchItems db0 did db k items).inventory
        = db.inventory.map
            (fun v => items.foldl (fun w it => invStep it w) v) := by
  induction items with
  | nil => intro db k; simp [applyDispatchItems]
  | cons it rest ih =>
      intro db k
      have h1 : applyDispatchItems db0 did db k (it :: rest)
          = applyDispatchItems db0 did (applyDispatchItem db0 did k db it)
              (k + 1) rest := rfl
      rw [h1, ih, applyDispatchItem_inventory, List.map_map]
      rfl

/-- Accumulated effect of the mutation loop on one inventory row: it loses
the total quantity requested for it across the whole request. -/
theorem foldl_invStep_eq (i : Nat) (items : List DispatchItemCreate) :
    ∀ (v : Inventory), v.id = i →
      items.foldl (fun w it => invStep it w) v
        = { v with stock_quantity :=
              v.stock_quantity - requestedForInventory items i } := by
  induction items with
  | nil => intro v _; simp [requestedForInventory]
  | cons it rest ih =>
      intro v hv
      by_cases h : it.inventory_id = i
      · have hstep : invStep it v
            = { v with stock_quantity := v.stock_quantity - it.quantity } := by
          unfold invStep
          simp [hv, h]
        have h2 := ih { v with stock_quantity := v.stock_quantity - it.quantity } hv
        simp only [List.foldl_cons, hstep, h2]
        simp [requestedForInventory, h, sub_sub]
      · have hstep : invStep it v = v := by
          unfold invStep
          have : (v.id == it.inventory_id) = false := by
            simp [hv]; omega
          simp [this]
        have h2 := ih v hv
        simp only [List.foldl_cons, hstep, h2]
        have hb : (it.inventory_id == i) = false := by
          simp only [beq_eq_false_iff_ne, ne_eq]; exact h
        have : requestedForInventory (it :: rest) i = requestedForInventory rest i := by
          simp [requestedForInventory, List.filter_cons, hb]
        rw [this]

/-- Rows whose key is referenced by no request line pass through the
mutation loop unchanged. -/
theorem foldl_itemStep_not_mem (db0 : DB) (items : List DispatchItemCreate) :
    ∀ (x : OrderItem), (∀ it ∈ items, x.id ≠ it.order_item_id) →
      items.foldl (fun y it => itemStep db0 it y) x = x := by
  induction items with
  | nil => intro x _; rfl
  | cons it rest ih =>
      intro x hx
      have hstep : itemStep db0 it x = x := by
        unfold itemStep
        have : (x.id == it.order_item_id) = false := by
          have := hx it (by simp)
          simp [this]
        simp [this]
      simp only [List.foldl_cons, hstep]
      exact ih x (fun it' h' => hx it' (by simp [h']))

/-- When every request line references a distinct order item, the row
referenced by line `it` is updated exactly once, by `it`'s own status
computation. -/
theorem foldl_itemStep_unique (db0 : DB) (items : List DispatchItemCreate)
    (hnd : (items.map (fun it => it.order_item_id)).Nodup) :
    ∀ (it : DispatchItemCreate), it ∈ items → ∀ (x : OrderItem),
      x.id = it.order_item_id →
      items.foldl (fun y it' => itemStep db0 it' y) x = itemStep db0 it x := by
  induction items with
  | nil => intro it h; exact absurd h (by simp)
  | cons hd tl ih =>
      intro it hmem x hx
      rcases List.mem_cons.mp hmem with heq | htl
      · subst heq
        simp only [List.foldl_cons]
        apply foldl_itemStep_not_mem
        intro it' h'
        rw [itemStep_id, hx]
        have hnotin : it.order_item_id ∉ tl.map (fun j => j.order_item_id) := by
          simpa using (List.nodup_cons.mp hnd).1
        intro hc
        exact hnotin (hc ▸ List.mem_map_of_mem (fun j => j.order_item_id) h')
      · have hne : hd.order_item_id ≠ it.order_item_id := by
          have hnotin : hd.order_item_id ∉ tl.map (fun j => j.order_item_id) := by
            simpa using (List.nodup_cons.mp hnd).1
          intro hc
          exact hnotin (hc ▸ List.mem_map_of_mem (fun j => j.order_item_id) htl)
        have hstep : itemStep db0 hd x = x := by
          unfold itemStep
          have : (x.id == hd.order_item_id) = false := by
            simp [hx]
            omega
          simp [this]
        simp only [List.foldl_cons, hstep]
        exact ih (List.nodup_cons.mp hnd).2 it htl x hx

/-- Line-by-line reading of a passing validation run. -/
theorem validateDispatchItems_eq_none (db : DB) (oid : Nat)
    (items : List DispatchItemCreate) :
    validateDispatchItems db oid items = none ↔
      ∀ it ∈ items, validateDispatchItem db oid it = none := by
  induction items with
  | nil => simp [validateDispatchItems]
  | cons it rest ih =>
      unfold validateDispatchItems
      cases h : validateDispatchItem db oid it with
      | none => simp [h, ih]
      | some e => simp [h]

theorem add_order_action_id (o : Order) (a : String) (d : Option String) :
    (add_order_action o a d).id = o.id := by
  obtain ⟨n, hn⟩ := add_order_action_eq_notes o a d
  rw [hn]

theorem add_order_action_status (o : Order) (a : String) (d : Option String) :
    (add_order_action o a d).status = o.status := by
  obtain ⟨n, hn⟩ := add_order_action_eq_notes o a d
  rw [hn]

theorem add_order_action_workflow_stage (o : Order) (a : String) (d : Option String) :
    (add_order_action o a d).workflow_stage = o.workflow_stage := by
  obtain ⟨n, hn⟩ := add_order_action_eq_notes o a d
  rw [hn]

/-- Looking an order up after an in-place row update. -/
theorem findOrder_updateOrder (db : DB) (oid : Nat) (f : Order → Order)
    (hf : ∀ o, (f o).id = o.id) (j : Nat) :
    (db.updateOrder oid f).findOrder j
      = (db.findOrder j).map (fun o => if o.id == oid then f o else o) := by
  unfold DB.updateOrder DB.findOrder
  exact find?_map_of_pred_inv _ _
    (fun o => by by_cases h : (o.id == oid) = true <;> simp [h, hf]) _

/-- Updating the row that a lookup returns. -/
theorem findOrder_updateOrder_self (db : DB) (oid : Nat) (f : Order → Order)
    (hf : ∀ o, (f o).id = o.id) (order : Order)
    (h : db.findOrder oid = some order) :
    (db.updateOrder oid f).findOrder oid = some (f order) := by
  have h' : db.orders.find? (fun o => o.id == oid) = some order := h
  have hid : (order.id == oid) = true := by
    have := List.find?_some h'
    exact this
  rw [findOrder_updateOrder db oid f hf oid, h, Option.map_some', if_pos hid]

theorem dispatchedQty_nonneg (db : DB) (j : Nat)
    (h : ∀ di ∈ db.dispatch_items, 0 < di.quantity) : 0 ≤ dispatchedQty db j := by
  unfold dispatchedQty
  apply List.sum_nonneg
  intro x hx
  simp only [List.mem_map] at hx
  obtain ⟨di, hdi, rfl⟩ := hx
  exact le_of_lt (h di (List.mem_of_mem_filter hdi))

theorem foldl_itemStep_id (db0 : DB) (items : List DispatchItemCreate) :
    ∀ (x : OrderItem),
      (items.foldl (fun y it => itemStep db0 it y) x).id = x.id := by
  induction items with
  | nil => intro x; rfl
  | cons it rest ih =>
      intro x
      simp only [List.foldl_cons]
      rw [ih, itemStep_id]

theorem foldl_invStep_id (items : List DispatchItemCreate) :
    ∀ (v : Inventory),
      (items.foldl (fun w it => invStep it w) v).id = v.id := by
  induction items with
  | nil => intro v; rfl
  | cons it rest ih =>
      intro v
      simp only [List.foldl_cons]
      rw [ih, invStep_id]

/-- The write phase leaves the inventory table as the pre-state decremented
line by line. -/
theorem createDispatchCommit_inventory (db : DB) (year uid : Nat)
    (req : DispatchCreate) :
    (createDispatchCommit db year uid req).1.inventory
      = db.inventory.map (fun v => req.items.foldl (fun w it => invStep it w) v) := by
  unfold createDispatchCommit
  dsimp only
  split
  · exact applyDispatchItems_inventory db _ req.items _ _
  · split
    · exact applyDispatchItems_inventory db _ req.items _ _
    · exact applyDispatchItems_inventory db _ req.items _ _

/-- The write phase leaves the order-item table as the pre-state with each
row rewritten by the status-recomputation steps. -/
theorem createDispatchCommit_order_items (db : DB) (year uid : Nat)
    (req : DispatchCreate) :
    (createDispatchCommit db year uid req).1.order_items
      = db.order_items.map
          (fun x => req.items.foldl (fun y it => itemStep db it y) x) := by
  unfold createDispatchCommit
  dsimp only
  split
  · exact applyDispatchItems_order_items db _ req.items _ _
  · split
    · exact applyDispatchItems_order_items db _ req.items _ _
    · exact applyDispatchItems_order_items db _ req.items _ _

/-- The order-level rollup of the write phase: `payment_pending` when every
order item ended completed, else `partially_dispatched` with the stage kept
(provided some item ended partial or completed, which a nonempty dispatch
guarantees). -/
theorem createDispatchCommit_order (db : DB) (year uid : Nat)
    (req : DispatchCreate) (order : Order)
    (horder : db.findOrder req.order_id = some order)
    (hap : ((db.order_items.map
              (fun x => req.items.foldl (fun y it => itemStep db it y) x)).filter
              (fun x => x.order_id == req.order_id)).any
              (fun x => x.status == "partial" || x.status == "completed") = true) :
    ∃ o', (createDispatchCommit db year uid req).1.findOrder req.order_id = some o' ∧
      (((db.order_items.map
            (fun x => req.items.foldl (fun y it => itemStep db it y) x)).filter
            (fun x => x.order_id == req.order_id)).all
            (fun x => x.status == "completed") = true →
        o'.status = "payment_pending" ∧ o'.workflow_stage = "payment_pending") ∧
      (((db.order_items.map
            (fun x => req.items.foldl (fun y it => itemStep db it y) x)).filter
            (fun x => x.order_id == req.order_id)).all
            (fun x => x.status == "completed") = false →
        o'.status = "partially_dispatched"
          ∧ o'.workflow_stage = order.workflow_stage) := by
  have h2 : (applyDispatchItems db (freshId (db.dispatches.map (fun d => d.id)))
      ({ db with dispatches := db.dispatches ++
          [({ id := freshId (db.dispatches.map (fun d => d.id)),
              dispatch_number := generate_dispatch_number db year,
              order_id := req.order_id, invoice_id := req.invoice_id,
              status := req.status, created_by := uid } : Dispatch)] })
      (freshId (db.dispatch_items.map (fun di => di.id)))
      req.items).findOrder req.order_id = some order := by
    unfold DB.findOrder
    rw [applyDispatchItems_orders]
    exact horder
  have hOI : (applyDispatchItems db (freshId (db.dispatches.map (fun d => d.id)))
      ({ db with dispatches := db.dispatches ++
          [({ id := freshId (db.dispatches.map (fun d => d.id)),
              dispatch_number := generate_dispatch_number db year,
              order_id := req.order_id, invoice_id := req.invoice_id,
              status := req.status, created_by := uid } : Dispatch)] })
      (freshId (db.dispatch_items.map (fun di => di.id)))
      req.items).order_items
      = db.order_items.map
          (fun x => req.items.foldl (fun y it => itemStep db it y) x) :=
    applyDispatchItems_order_items db _ req.items _ _
  unfold createDispatchCommit
  dsimp only
  rw [hOI]
  split
  · next hA =>
      refine ⟨_, findOrder_updateOrder_self _ _ _ ?hg _
          (findOrder_updateOrder_self _ _ _ ?hf _ h2), ?_, ?_⟩
      case hf => intro o; exact add_order_action_id _ _ _
      case hg => intro o; exact add_order_action_id _ _ _
      · intro _
        exact ⟨add_order_action_status _ _ _, add_order_action_workflow_stage _ _ _⟩
      · intro hfalse
        rw [hA] at hfalse
        cases hfalse
  · next hA =>
      refine ⟨_, findOrder_updateOrder_self _ _ _ ?hg2 _
          (findOrder_updateOrder_self _ _ _ ?hf2 _ h2), ?_, ?_⟩
      case hf2 => intro o; exact add_order_action_id _ _ _
      case hg2 => intro o; exact rfl
      · intro htrue
        exact absurd htrue hA
      · intro _
        refine ⟨rfl, ?_⟩
        rw [show ∀ (x : Order),
            ({ x with status := "partially_dispatched" } : Order).workflow_stage
              = x.workflow_stage from fun _ => rfl]
        rw [add_order_action_workflow_stage]

/-- C1: the spec's stock invariant (`on_hand_quantity ≥ 0` at all times, and
validation-passing dispatch requests never drive it negative) is broken by
the code on requests whose lines reference the same catalog item more than
once: each line is checked against the untouched pre-request stock, so with
stock 5 a request of two five-unit lines passes validation and the decrement
loop drives `stock_quantity` to `-5`.  The committed state violates the
inventory table's own `CheckConstraint('stock_quantity >= 0')`, so the code
contradicts its own model declaration (on a strict backend the final commit
aborts with an integrity error instead of the promised pre-write domain
rejection). -/
theorem create_dispatch_duplicate_lines_drive_stock_negative :
    (resultDB (create_dispatch dbStock5 2025 "inventory_admin" 1 reqTwice5)).map
        (fun db => ((db.findInventory 100).map (fun v => v.stock_quantity),
                    check_stock_non_negative db))
      = some (some (-5), false) := by
  decide

/-- C2: the spec's per-line dispatch invariant
(`Σ DispatchLine.quantity ≤ OrderLine.quantity`) is broken by the code on
requests referencing the same order line more than once: the outstanding
check compares each request line against the pre-request dispatched sum, so
on a ten-unit order line with nothing dispatched a request of two six-unit
lines passes validation and commits twelve dispatched units against the
ten-unit line. -/
theorem create_dispatch_duplicate_lines_exceed_order_quantity :
    (resultDB (create_dispatch dbStock100 2025 "inventory_admin" 1 reqTwice6)).map
        (fun db => (dispatchedQty db 10,
                    (db.findOrderItem 10).map (fun oi => oi.quantity)))
      = some (12, some 10) := by
  decide

/-- C3 fails as stated, at three concrete validation-passing inputs, one
for each restriction the amended claim adds.
First conjunct: two lines both referencing the ten-unit order line (five
units each) — cumulative dispatched reaches ten, yet the line's status ends
`"partial"` instead of the claimed `"completed"` (the per-line status
recomputation only adds the current line to the pre-request dispatched
sum).
Second conjunct: a request with zero lines — the order's lone line stays
`"pending"`, not every order item is completed, yet the order's status is
left `"po_approved"` instead of the claimed `"partially_dispatched"` (the
rollup only fires when some item is partial or completed).
Third conjunct: two lines on two distinct order lines, both drawing five
units from catalog item 100 whose stock is five — per-line validation
passes, but the write loop computes stock `-5`, a state that violates the
inventory table's `CheckConstraint('stock_quantity >= 0')`; on the real
database `db.commit()` therefore aborts with an integrity error and none of
the claimed effects persist. -/
theorem create_dispatch_success_claim_counterexamples :
    ((resultDB (create_dispatch dbStock100 2025 "inventory_admin" 1 reqTwice5)).map
        (fun db => ((db.findOrderItem 10).map (fun oi => (oi.status, oi.quantity)),
                    dispatchedQty db 10))
      = some (some ("partial", 10), 10)) ∧
    ((resultDB (create_dispatch dbStock100 2025 "inventory_admin" 1 reqEmpty)).map
        (fun db => ((db.findOrder 1).map (fun o => (o.status, o.workflow_stage)),
                    (db.findOrderItem 10).map (fun oi => oi.status)))
      = some (some ("po_approved", "inventory_check"), some "pending")) ∧
    ((resultDB (create_dispatch dbTwoItemsStock5 2025 "inventory_admin" 1 reqTwoItems5)).map
        (fun db => ((db.findInventory 100).map (fun v => v.stock_quantity),
                    check_stock_non_negative db))
      = some (some (-5), false)) ∧
    (reqTwoItems5.items.map (fun it => it.order_item_id)).Nodup := by
  refine ⟨by decide, by decide, by decide, by decide⟩

/-- C3 (amended, with one restriction per conjunct of the counterexample:
requests with at least one line — an empty request skips the rollup;
pairwise-distinct order-item references — duplicates break the status
recomputation; and, per catalog item, a requested total within stock — the
per-line validation does not aggregate, and a larger total yields a store
the database refuses to commit): for an order in stage `inventory_check`
and a request passing validation, `create_dispatch` succeeds and the
committed store satisfies the stock check constraint (so `db.commit()`
really accepts it: the inserted dispatch lines are positive by the schema
bound `hpos`, and every stock stays non-negative — the conclusion proved
first below); every referenced catalog item's stock is decremented by the
total quantity requested for it; every referenced order item's status
becomes `"completed"` when previously-dispatched plus now-dispatched
reaches its quantity and `"partial"` otherwise; and the order ends in
status/stage `payment_pending` when every one of its order items is
completed, else in status `partially_dispatched` with the stage still
`inventory_check`.  The hypothesis `hstock` instantiated at an unreferenced
catalog item just restates its row's check constraint (requested total 0),
so it is satisfied by every committed pre-state; `hdq` likewise restates
the dispatch-line check constraint on the pre-state. -/
theorem create_dispatch_success_effects
    (db : DB) (year uid : Nat) (req : DispatchCreate) (order : Order)
    (role_name : String)
    (hrole : (role_name == "inventory_admin" || role_name == "executive") = true)
    (horder : db.findOrder req.order_id = some order)
    (hstage : order.workflow_stage = "inventory_check")
    (hval : validateDispatchItems db req.order_id req.items = none)
    (hne : req.items ≠ [])
    (hnd : (req.items.map (fun it => it.order_item_id)).Nodup)
    (hstock : ∀ inv ∈ db.inventory,
      requestedForInventory req.items inv.id ≤ inv.stock_quantity)
    (hpos : ∀ it ∈ req.items, 0 < it.quantity)
    (hdq : ∀ di ∈ db.dispatch_items, 0 < di.quantity) :
    ∃ db' did, create_dispatch db year role_name uid req = .ok (db', did) ∧
      check_stock_non_negative db' = true ∧
      (∀ it ∈ req.items, ∀ inv, db.findInventory it.inventory_id = some inv →
        ∃ inv', db'.findInventory it.inventory_id = some inv' ∧
          inv'.stock_quantity
            = inv.stock_quantity - requestedForInventory req.items it.inventory_id) ∧
      (∀ it ∈ req.items, ∀ oi, db.findOrderItem it.order_item_id = some oi →
        ∃ oi', db'.findOrderItem it.order_item_id = some oi' ∧
          oi'.status
            = (if dispatchedQty db it.order_item_id + it.quantity ≥ oi.quantity
               then "completed" else "partial")) ∧
      (∃ o', db'.findOrder req.order_id = some o' ∧
        ((db'.order_items.filter (fun x => x.order_id == req.order_id)).all
            (fun x => x.status == "completed") = true →
          o'.status = "payment_pending" ∧ o'.workflow_stage = "payment_pending") ∧
        ((db'.order_items.filter (fun x => x.order_id == req.order_id)).all
            (fun x => x.status == "completed") = false →
          o'.status = "partially_dispatched"
            ∧ o'.workflow_stage = "inventory_check")) := by
  have hrun : create_dispatch db year role_name uid req
      = .ok (createDispatchCommit db year uid req) := by
    unfold create_dispatch
    rw [if_neg (by simp [hrole])]
    split
    · next heq => rw [horder] at heq; cases heq
    · next o' heq =>
        rw [horder] at heq
        injection heq with heq'
        subst heq'
        rw [hstage]
        simp only [bne_self_eq_false, Bool.false_eq_true, if_false]
        split
        · next e heq2 => rw [hval] at heq2; cases heq2
        · rfl
  refine ⟨(createDispatchCommit db year uid req).1,
          (createDispatchCommit db year uid req).2, by rw [hrun], ?_, ?_, ?_, ?_⟩
  · -- the committed store satisfies the stock check constraint
    unfold check_stock_non_negative
    rw [createDispatchCommit_inventory]
    rw [List.all_eq_true]
    intro v' hv'
    rw [List.mem_map] at hv'
    obtain ⟨v, hv, rfl⟩ := hv'
    rw [foldl_invStep_eq v.id req.items v rfl]
    exact decide_eq_true (sub_nonneg.mpr (hstock v hv))
  · -- stock decrements
    intro it hit inv hinv
    have hfind : (createDispatchCommit db year uid req).1.findInventory it.inventory_id
        = (db.findInventory it.inventory_id).map
            (fun v => req.items.foldl (fun w j => invStep j w) v) := by
      unfold DB.findInventory
      rw [createDispatchCommit_inventory]
      exact find?_map_of_pred_inv _ _ (fun v => by rw [foldl_invStep_id]) _
    rw [hinv] at hfind
    simp only [Option.map_some'] at hfind
    refine ⟨_, hfind, ?_⟩
    have hinv' : db.inventory.find? (fun v => v.id == it.inventory_id) = some inv := hinv
    have hvid : inv.id = it.inventory_id := by
      have := List.find?_some hinv'
      exact eq_of_beq this
    rw [foldl_invStep_eq it.inventory_id req.items inv hvid]
  · -- item statuses
    intro it hit oi hoi
    have hfind : (createDispatchCommit db year uid req).1.findOrderItem it.order_item_id
        = (db.findOrderItem it.order_item_id).map
            (fun x => req.items.foldl (fun y j => itemStep db j y) x) := by
      unfold DB.findOrderItem
      rw [createDispatchCommit_order_items]
      refine find?_map_of_pred_inv _ _ (fun x => ?_) _
      rw [foldl_itemStep_id]
    rw [hoi] at hfind
    simp only [Option.map_some'] at hfind
    refine ⟨_, hfind, ?_⟩
    have hoi' : db.order_items.find? (fun x => x.id == it.order_item_id) = some oi := hoi
    have hx : oi.id = it.order_item_id := by
      have := List.find?_some hoi'
      exact eq_of_beq this
    rw [foldl_itemStep_unique db req.items hnd it hit oi hx]
    unfold itemStep
    rw [if_pos (beq_iff_eq.mpr hx)]
    by_cases hth : dispatchedQty db it.order_item_id + it.quantity ≥ oi.quantity
    · rw [if_pos hth, if_pos hth]
    · have hpos' : 0 < dispatchedQty db it.order_item_id + it.quantity :=
        add_pos_of_nonneg_of_pos (dispatchedQty_nonneg db _ hdq) (hpos it hit)
      rw [if_neg hth, if_neg hth, if_pos hpos']
  · -- order rollup
    obtain ⟨it0, rest0, hitems0⟩ := List.exists_cons_of_ne_nil hne
    have hmem0 : it0 ∈ req.items := by rw [hitems0]; exact List.mem_cons_self _ _
    have hv0 : validateDispatchItem db req.order_id it0 = none :=
      (validateDispatchItems_eq_none db req.order_id req.items).mp hval it0 hmem0
    unfold validateDispatchItem at hv0
    rcases hfo : db.order_items.find?
        (fun x => x.id == it0.order_item_id && x.order_id == req.order_id) with _ | oi0
    · rw [hfo] at hv0; cases hv0
    · rw [hfo] at hv0
      have hmemdb : oi0 ∈ db.order_items := List.mem_of_find?_eq_some hfo
      have hprops := List.find?_some hfo
      rw [Bool.and_eq_true] at hprops
      have hx0 : oi0.id = it0.order_item_id := eq_of_beq hprops.1
      have horder0 : (oi0.order_id == req.order_id) = true := hprops.2
      have hupd : req.items.foldl (fun y j => itemStep db j y) oi0
          = itemStep db it0 oi0 :=
        foldl_itemStep_unique db req.items hnd it0 hmem0 oi0 hx0
      have hstep0 : itemStep db it0 oi0
          = { oi0 with status :=
                if dispatchedQty db it0.order_item_id + it0.quantity ≥ oi0.quantity
                then "completed"
                else if dispatchedQty db it0.order_item_id + it0.quantity > 0
                then "partial" else "pending" } := by
        unfold itemStep
        rw [if_pos (beq_iff_eq.mpr hx0)]
      have hap : ((db.order_items.map
          (fun x => req.items.foldl (fun y it' => itemStep db it' y) x)).filter
          (fun x => x.order_id == req.order_id)).any
          (fun x => x.status == "partial" || x.status == "completed") = true := by
        rw [List.any_eq_true]
        refine ⟨itemStep db it0 oi0, ?_, ?_⟩
        · rw [List.mem_filter]
          constructor
          · rw [← hupd]
            exact List.mem_map_of_mem _ hmemdb
          · rw [hstep0]
            exact horder0
        · rw [hstep0]
          by_cases hth : dispatchedQty db it0.order_item_id + it0.quantity ≥ oi0.quantity
          · simp [hth]
          · have hpos' : 0 < dispatchedQty db it0.order_item_id + it0.quantity :=
              add_pos_of_nonneg_of_pos (dispatchedQty_nonneg db _ hdq)
                (hpos it0 hmem0)
            simp [hth, hpos']
      obtain ⟨o', ho', hcondT, hcondF⟩ :=
        createDispatchCommit_order db year uid req order horder hap
      rw [hstage] at hcondF
      refine ⟨o', ho', ?_, ?_⟩
      · rw [createDispatchCommit_order_items]
        exact hcondT
      · rw [createDispatchCommit_order_items]
        exact hcondF

/-- Witness for C3's amended theorem at Scenario A's input: six of ten units
dispatched from stock 100 by an inventory admin. -/
theorem create_dispatch_success_effects_witness :
    ∃ db' did, create_dispatch dbStock100 2025 "inventory_admin" 1 reqSix
        = .ok (db', did) ∧
      check_stock_non_negative db' = true ∧
      (∀ it ∈ reqSix.items, ∀ inv,
        dbStock100.findInventory it.inventory_id = some inv →
        ∃ inv', db'.findInventory it.inventory_id = some inv' ∧
          inv'.stock_quantity
            = inv.stock_quantity
              - requestedForInventory reqSix.items it.inventory_id) ∧
      (∀ it ∈ reqSix.items, ∀ oi,
        dbStock100.findOrderItem it.order_item_id = some oi →
        ∃ oi', db'.findOrderItem it.order_item_id = some oi' ∧
          oi'.status
            = (if dispatchedQty dbStock100 it.order_item_id + it.quantity
                  ≥ oi.quantity
               then "completed" else "partial")) ∧
      (∃ o', db'.findOrder reqSix.order_id = some o' ∧
        ((db'.order_items.filter (fun x => x.order_id == reqSix.order_id)).all
            (fun x => x.status == "completed") = true →
          o'.status = "payment_pending"
            ∧ o'.workflow_stage = "payment_pending") ∧
        ((db'.order_items.filter (fun x => x.order_id == reqSix.order_id)).all
            (fun x => x.status == "completed") = false →
          o'.status = "partially_dispatched"
            ∧ o'.workflow_stage = "inventory_check")) :=
  create_dispatch_success_effects dbStock100 2025 1 reqSix orderInvCheck
    "inventory_admin" (by decide) (by decide) rfl (by decide) (by decide)
    (by decide) (by decide) (by decide) (by decide)

/-- A resolvable line that violates a quantity bound fails its own
validation with a quantity-violation error. -/
theorem validateDispatchItem_violation (db : DB) (order_id : Nat)
    (it : DispatchItemCreate) (href : lineRefsResolve db order_id it)
    (hviol : exceedsOutstanding db order_id it ∨ exceedsStock db it) :
    ∃ e, validateDispatchItem db order_id it = some e
      ∧ e.isQuantityViolation = true := by
  obtain ⟨⟨oi, hoi⟩, ⟨inv, hinv⟩⟩ := href
  unfold validateDispatchItem
  rw [hoi]
  dsimp only
  by_cases hq : it.quantity > oi.quantity - dispatchedQty db oi.id
  · rw [if_pos hq]
    exact ⟨_, rfl, rfl⟩
  · rw [if_neg hq, hinv]
    dsimp only
    rcases hviol with ⟨oi', hoi', hq'⟩ | ⟨inv', hinv', hs⟩
    · rw [hoi] at hoi'
      injection hoi' with h
      subst h
      exact absurd hq' hq
    · rw [hinv] at hinv'
      injection hinv' with h
      subst h
      rw [if_pos hs]
      exact ⟨_, rfl, rfl⟩

/-- A resolvable line can only ever fail validation with a
quantity-violation error. -/
theorem validateDispatchItem_some_isQV (db : DB) (order_id : Nat)
    (it : DispatchItemCreate) (href : lineRefsResolve db order_id it) :
    ∀ e, validateDispatchItem db order_id it = some e
      → e.isQuantityViolation = true := by
  obtain ⟨⟨oi, hoi⟩, ⟨inv, hinv⟩⟩ := href
  intro e he
  unfold validateDispatchItem at he
  rw [hoi] at he
  dsimp only at he
  by_cases hq : it.quantity > oi.quantity - dispatchedQty db oi.id
  · rw [if_pos hq] at he
    injection he with h
    subst h
    rfl
  · rw [if_neg hq, hinv] at he
    dsimp only at he
    by_cases hs : it.quantity > inv.stock_quantity
    · rw [if_pos hs] at he
      injection he with h
      subst h
      rfl
    · rw [if_neg hs] at he
      cases he

/-- If every line of a request resolves and some line violates a quantity
bound, the validation loop rejects the request with a quantity-violation
error. -/
theorem validateDispatchItems_violation (db : DB) (order_id : Nat)
    (items : List DispatchItemCreate)
    (hrefs : ∀ it ∈ items, lineRefsResolve db order_id it)
    (hviol : ∃ it ∈ items,
      exceedsOutstanding db order_id it ∨ exceedsStock db it) :
    ∃ e, validateDispatchItems db order_id items = some e
      ∧ e.isQuantityViolation = true := by
  induction items with
  | nil => obtain ⟨it, hmem, _⟩ := hviol; cases hmem
  | cons hd tl ih =>
      unfold validateDispatchItems
      cases h : validateDispatchItem db order_id hd with
      | some e =>
          exact ⟨e, rfl,
            validateDispatchItem_some_isQV db order_id hd
              (hrefs hd (List.mem_cons_self _ _)) e h⟩
      | none =>
          obtain ⟨it, hmem, hv⟩ := hviol
          rcases List.mem_cons.mp hmem with heq | htl
          · subst heq
            obtain ⟨e, he, _⟩ := validateDispatchItem_violation db order_id it
              (hrefs it (List.mem_cons_self _ _)) hv
            rw [h] at he
            cases he
          · exact ih (fun j hj => hrefs j (List.mem_cons_of_mem _ hj))
              ⟨it, htl, hv⟩

/-- C4: a dispatch request against an order outside stage `inventory_check`
is rejected with the stage-precondition error, and a request (whose
references resolve) containing a line that exceeds its outstanding quantity
or its catalog item's stock is rejected with a quantity-violation error; in
both cases the rejection is raised before the write phase, so the
transaction is rolled back with no dispatch rows created, no stock
decremented and no order or order-item status changed (the error return
carries no successor state). -/
theorem create_dispatch_rejects_invalid
    (db : DB) (year uid : Nat) (req : DispatchCreate) (order : Order)
    (role_name : String)
    (hrole : (role_name == "inventory_admin" || role_name == "executive") = true)
    (horder : db.findOrder req.order_id = some order) :
    (order.workflow_stage ≠ "inventory_check" →
      create_dispatch db year role_name uid req
        = .error (.stagePrecondition "inventory_check")) ∧
    (order.workflow_stage = "inventory_check" →
      (∀ it ∈ req.items, lineRefsResolve db req.order_id it) →
      (∃ it ∈ req.items,
        exceedsOutstanding db req.order_id it ∨ exceedsStock db it) →
      ∃ e, create_dispatch db year role_name uid req = .error e
        ∧ e.isQuantityViolation = true) := by
  constructor
  · intro hne
    unfold create_dispatch
    rw [if_neg (by simp [hrole])]
    split
    · next heq => rw [horder] at heq; cases heq
    · next o' heq =>
        rw [horder] at heq
        injection heq with heq'
        subst heq'
        rw [if_pos (by simp only [bne_iff_ne, ne_eq]; exact hne)]
  · intro hstage hrefs hviol
    obtain ⟨e, hv, hqv⟩ :=
      validateDispatchItems_violation db req.order_id req.items hrefs hviol
    refine ⟨e, ?_, hqv⟩
    unfold create_dispatch
    rw [if_neg (by simp [hrole])]
    split
    · next heq => rw [horder] at heq; cases heq
    · next o' heq =>
        rw [horder] at heq
        injection heq with heq'
        subst heq'
        rw [hstage]
        simp only [bne_self_eq_false, Bool.false_eq_true, if_false]
        split
        · next e' heq2 =>
            rw [hv] at heq2
            injection heq2 with heq2'
            subst heq2'
            rfl
        · next heq2 => rw [hv] at heq2; cases heq2

/-- Witness for C4 at Scenario C's input: five units requested when the
outstanding quantity is only four (six of ten already dispatched). -/
theorem create_dispatch_rejects_invalid_witness :
    ∃ e, create_dispatch dbOutstanding4 2025 "inventory_admin" 1 reqFive
        = .error e ∧ e.isQuantityViolation = true :=
  (create_dispatch_rejects_invalid dbOutstanding4 2025 1 reqFive orderInvCheck
      "inventory_admin" (by decide) (by decide)).2 rfl
    (by
      intro it hit
      have hit2 : it ∈ [(⟨10, 100, 5⟩ : DispatchItemCreate)] := hit
      have hit3 : it = ⟨10, 100, 5⟩ := List.mem_singleton.mp hit2
      subst hit3
      exact ⟨⟨itemQty10, by decide⟩, ⟨invStock100, by decide⟩⟩)
    ⟨⟨10, 100, 5⟩, by decide, Or.inl ⟨itemQty10, by decide, by decide⟩⟩

/-- C5 fails as stated: on an order in the non-gated stage `inventory_check`
carrying a pending approval record, the approve action is not a rejected
request — it returns success — and it resolves (approves) the pending
approval record rather than leaving the approval store unchanged. -/
theorem approve_order_non_gated_not_rejected :
    (resultDBo (approve_order dbPendingAtInvCheck 1 9 none)).map
        (fun db => (db.approvals.map (fun a => (a.status, a.approver_id)),
                    (db.findOrder 1).map (fun o => (o.workflow_stage, o.status))))
      = some ([("approved", some 9)], some ("inventory_check", "po_approved")) := by
  decide

/-- C5 (amended: the handler has no stage guard at all): invoking approve on
an existing order whose stage is none of the three approval-gated stages
succeeds, leaves the order's workflow_stage and status unchanged, and — far
from leaving the approval store untouched — marks the first pending Approval
record for the order (whatever its stage) as approved by the caller. -/
theorem approve_order_non_gated_effects
    (db : DB) (oid uid : Nat) (comments : Option String) (order : Order)
    (horder : db.findOrder oid = some order)
    (h1 : order.workflow_stage ≠ "decoding_approval")
    (h2 : order.workflow_stage ≠ "quotation_generated")
    (h3 : order.workflow_stage ≠ "po_approval") :
    ∃ db', approve_order db oid uid comments = .ok db' ∧
      (∃ o', db'.findOrder oid = some o' ∧
        o'.workflow_stage = order.workflow_stage ∧ o'.status = order.status) ∧
      (∀ a, findPendingApproval db oid = some a →
        ∃ a' ∈ db'.approvals, a'.id = a.id ∧ a'.status = "approved"
          ∧ a'.approver_id = some uid) := by
  unfold approve_order
  split
  · next heq => rw [horder] at heq; cases heq
  · next o' heq =>
      rw [horder] at heq
      injection heq with heq'
      subst heq'
      have hb1 : (order.workflow_stage == "decoding_approval") = false := by
        simp only [beq_eq_false_iff_ne, ne_eq]; exact h1
      have hb2 : (order.workflow_stage == "quotation_generated") = false := by
        simp only [beq_eq_false_iff_ne, ne_eq]; exact h2
      have hb3 : (order.workflow_stage == "po_approval") = false := by
        simp only [beq_eq_false_iff_ne, ne_eq]; exact h3
      simp only [hb1, hb2, hb3, Bool.false_eq_true, if_false]
      cases hp : findPendingApproval db oid with
      | none =>
          simp only [hp]
          refine ⟨_, rfl,
            ⟨_, findOrder_updateOrder_self _ _ _ ?hf _ horder, ?_, ?_⟩, ?_⟩
          case hf => intro o; exact add_order_action_id _ _ _
          · rw [add_order_action_workflow_stage]
          · rw [add_order_action_status]
          · intro a ha; cases ha
      | some approval =>
          simp only [hp]
          have horder2 : (db.updateApproval approval.id (fun a =>
              { a with approver_id := some uid, status := "approved",
                       comments := comments })).findOrder oid = some order := horder
          refine ⟨_, rfl,
            ⟨_, findOrder_updateOrder_self _ _ _ ?hf2 _ horder2, ?_, ?_⟩, ?_⟩
          case hf2 => intro o; exact add_order_action_id _ _ _
          · rw [add_order_action_workflow_stage]
          · rw [add_order_action_status]
          · intro a ha
            injection ha with ha'
            subst ha'
            have hmem : approval ∈ db.approvals := by
              have hp' : db.approvals.find? (fun b =>
                  b.entity_type == "order" && b.entity_id == oid
                    && b.status == "pending") = some approval := hp
              exact List.mem_of_find?_eq_some hp'
            have hself : (approval.id == approval.id) = true := by simp
            refine ⟨(fun b => if b.id == approval.id then
                { b with approver_id := some uid, status := "approved",
                         comments := comments } else b) approval,
              List.mem_map_of_mem _ hmem, ?_, ?_, ?_⟩
            · dsimp only
              rw [if_pos hself]
            · dsimp only
              rw [if_pos hself]
            · dsimp only
              rw [if_pos hself]

/-- Witness for C5's amended theorem: an order in `inventory_check` with one
pending decoding approval; approving succeeds, keeps stage and status, and
flips the pending record to approved. -/
theorem approve_order_non_gated_effects_witness :
    ∃ db', approve_order dbPendingAtInvCheck 1 9 none = .ok db' ∧
      (∃ o', db'.findOrder 1 = some o' ∧
        o'.workflow_stage = orderInvCheck.workflow_stage
          ∧ o'.status = orderInvCheck.status) ∧
      (∀ a, findPendingApproval dbPendingAtInvCheck 1 = some a →
        ∃ a' ∈ db'.approvals, a'.id = a.id ∧ a'.status = "approved"
          ∧ a'.approver_id = some 9) :=
  approve_order_non_gated_effects dbPendingAtInvCheck 1 9 none orderInvCheck
    (by decide) (by decide) (by decide) (by decide)

/-- C6: rejecting an order in stage `quotation_generated` returns it to
stage `quotation` with status `approved`, clears the price-list reference
and the discount, and resets every decoded line's unit price to the
referenced catalog item's current standard price. -/
theorem reject_order_quotation_round_trip
    (db : DB) (oid uid : Nat) (reason : String) (order : Order)
    (horder : db.findOrder oid = some order)
    (hstage : order.workflow_stage = "quotation_generated") :
    ∃ db', reject_order db oid uid reason = .ok db' ∧
      (∃ o', db'.findOrder oid = some o' ∧
        o'.workflow_stage = "quotation" ∧ o'.status = "approved" ∧
        o'.price_list_id = none ∧ o'.discount_percentage = 0) ∧
      (∀ item ∈ db.order_items, item.order_id = oid →
        ∀ invId, item.inventory_id = some invId →
        ∀ inv, db.findInventory invId = some inv →
          { item with unit_price := some inv.unit_price } ∈ db'.order_items) := by
  unfold reject_order
  split
  · next heq => rw [horder] at heq; cases heq
  · next o' heq =>
      rw [horder] at heq
      injection heq with heq'
      subst heq'
      have hb : (order.workflow_stage == "quotation_generated") = true :=
        beq_iff_eq.mpr hstage
      rw [if_pos hb]
      cases hp : findPendingApproval db oid with
      | none =>
          simp only [hp]
          refine ⟨_, rfl,
            ⟨_, findOrder_updateOrder_self _ _ _ ?hf _
              (findOrder_updateOrder_self _ _ _ ?hg _ horder), ?_, ?_, ?_, ?_⟩, ?_⟩
          case hf => intro o; exact add_order_action_id _ _ _
          case hg => intro o; exact rfl
          · rw [add_order_action_workflow_stage]
          · rw [add_order_action_status]
          · rw [show ∀ (o : Order) a d,
                (add_order_action o a d).price_list_id = o.price_list_id from
                fun o a d => by
                  obtain ⟨n, hn⟩ := add_order_action_eq_notes o a d
                  rw [hn]]
          · rw [show ∀ (o : Order) a d,
                (add_order_action o a d).discount_percentage
                  = o.discount_percentage from
                fun o a d => by
                  obtain ⟨n, hn⟩ := add_order_action_eq_notes o a d
                  rw [hn]]
          · intro item hmem hoid invId hinvId inv hinv
            have hbo : (item.order_id == oid) = true := beq_iff_eq.mpr hoid
            have heval : resetItemPrice db oid item
                = { item with unit_price := some inv.unit_price } := by
              unfold resetItemPrice
              rw [if_pos hbo, hinvId]
              dsimp only
              rw [hinv]
            have : resetItemPrice db oid item
                ∈ db.order_items.map (resetItemPrice db oid) :=
              List.mem_map_of_mem _ hmem
            rw [heval] at this
            exact this
      | some approval =>
          simp only [hp]
          have horder2 : (db.updateApproval approval.id (fun a =>
              { a with approver_id := some uid, status := "rejected",
                       comments := some reason })).findOrder oid
                = some order := horder
          refine ⟨_, rfl,
            ⟨_, findOrder_updateOrder_self _ _ _ ?hf2 _
              (findOrder_updateOrder_self _ _ _ ?hg2 _ horder2), ?_, ?_, ?_, ?_⟩, ?_⟩
          case hf2 => intro o; exact add_order_action_id _ _ _
          case hg2 => intro o; exact rfl
          · rw [add_order_action_workflow_stage]
          · rw [add_order_action_status]
          · rw [show ∀ (o : Order) a d,
                (add_order_action o a d).price_list_id = o.price_list_id from
                fun o a d => by
                  obtain ⟨n, hn⟩ := add_order_action_eq_notes o a d
                  rw [hn]]
          · rw [show ∀ (o : Order) a d,
                (add_order_action o a d).discount_percentage
                  = o.discount_percentage from
                fun o a d => by
                  obtain ⟨n, hn⟩ := add_order_action_eq_notes o a d
                  rw [hn]]
          · intro item hmem hoid invId hinvId inv hinv
            have hbo : (item.order_id == oid) = true := beq_iff_eq.mpr hoid
            have heval : resetItemPrice db oid item
                = { item with unit_price := some inv.unit_price } := by
              unfold resetItemPrice
              rw [if_pos hbo, hinvId]
              dsimp only
              rw [hinv]
            have hmm : resetItemPrice db oid item
                ∈ db.order_items.map (resetItemPrice db oid) :=
              List.mem_map_of_mem _ hmem
            rw [heval] at hmm
            exact hmm

/-- Witness for C6: a line decoded at price-list price 999 against catalog
item 100 (standard price 50); after rejecting the quotation the order is
back in `quotation`/`approved` with no price list and no discount, and the
line's price is the catalog's current 50, not 999. -/
theorem reject_order_quotation_round_trip_witness :
    ∃ db', reject_order dbQuotGen 1 9 "too expensive" = .ok db' ∧
      (∃ o', db'.findOrder 1 = some o' ∧
        o'.workflow_stage = "quotation" ∧ o'.status = "approved" ∧
        o'.price_list_id = none ∧ o'.discount_percentage = 0) ∧
      (∀ item ∈ dbQuotGen.order_items, item.order_id = 1 →
        ∀ invId, item.inventory_id = some invId →
        ∀ inv, dbQuotGen.findInventory invId = some inv →
          { item with unit_price := some inv.unit_price } ∈ db'.order_items) :=
  reject_order_quotation_round_trip dbQuotGen 1 9 "too expensive" orderQuotGen
    (by decide) (by decide)

/-- If no pending approval exists for the order at all, the stage-filtered
lookup of `approve_purchase_order` finds nothing either. -/
theorem find?_po_pending_none (db : DB) (oid : Nat)
    (hnp : findPendingApproval db oid = none) :
    db.approvals.find? (fun a =>
      a.entity_type == "order" && a.entity_id == oid
        && a.stage == "po_approval" && a.status == "pending") = none := by
  have hnp' : db.approvals.find? (fun a =>
      a.entity_type == "order" && a.entity_id == oid
        && a.status == "pending") = none := hnp
  have h := List.find?_eq_none.mp hnp'
  refine List.find?_eq_none.mpr ?_
  intro x hx hc
  apply h x hx
  simp only [Bool.and_eq_true] at hc ⊢
  exact ⟨⟨hc.1.1.1, hc.1.1.2⟩, hc.2⟩

/-- C7: resolving an approval when no pending record exists is a silent
no-op on the approval store — `approve_purchase_order` at stage
`po_approval` still succeeds, leaves the approvals table exactly as it was
(no error, no new or modified record), and still advances the order to
`inventory_check` with status `po_approved`; the generic `approve_order`
likewise succeeds with the approvals table unchanged. -/
theorem resolve_without_pending_is_noop
    (db : DB) (oid uid : Nat) (comments : Option String) (order : Order)
    (horder : db.findOrder oid = some order)
    (hstage : order.workflow_stage = "po_approval")
    (hnp : findPendingApproval db oid = none) :
    (∃ db₁, approve_purchase_order db oid uid = .ok db₁ ∧
      db₁.approvals = db.approvals ∧
      ∃ o', db₁.findOrder oid = some o' ∧
        o'.workflow_stage = "inventory_check" ∧ o'.status = "po_approved") ∧
    (∃ db₂, approve_order db oid uid comments = .ok db₂ ∧
      db₂.approvals = db.approvals) := by
  constructor
  · unfold approve_purchase_order
    split
    · next heq => rw [horder] at heq; cases heq
    · next o' heq =>
        rw [horder] at heq
        injection heq with heq'
        subst heq'
        rw [hstage]
        simp only [bne_self_eq_false, Bool.false_eq_true, if_false]
        rw [find?_po_pending_none db oid hnp]
        refine ⟨_, rfl, ?_⟩
        refine ⟨rfl, ?_⟩
        refine ⟨_, findOrder_updateOrder_self _ _ _ ?hf _ horder, ?_, ?_⟩
        case hf => intro o; exact add_order_action_id _ _ _
        · rw [add_order_action_workflow_stage]
        · rw [add_order_action_status]
  · unfold approve_order
    split
    · next heq => rw [horder] at heq; cases heq
    · next o' heq =>
        rw [horder] at heq
        injection heq with heq'
        subst heq'
        simp only [hnp]
        refine ⟨_, rfl, ?_⟩
        rfl

/-- Witness for C7: an order in `po_approval` with an empty approvals table;
both resolutions succeed without touching the (empty) approval store, and
approve-PO advances the order to `inventory_check`. -/
theorem resolve_without_pending_is_noop_witness :
    (∃ db₁, approve_purchase_order dbPoApprovalNoPending 1 9 = .ok db₁ ∧
      db₁.approvals = dbPoApprovalNoPending.approvals ∧
      ∃ o', db₁.findOrder 1 = some o' ∧
        o'.workflow_stage = "inventory_check" ∧ o'.status = "po_approved") ∧
    (∃ db₂, approve_order dbPoApprovalNoPending 1 9 none = .ok db₂ ∧
      db₂.approvals = dbPoApprovalNoPending.approvals) :=
  resolve_without_pending_is_noop dbPoApprovalNoPending 1 9 none
    orderPoApproval (by decide) (by decide) (by decide)

/-- C8: at stage `waiting_purchase_order`, requesting PO approval with zero
attachments of entity type `order` is rejected by the attachment-count guard
before any write (no approval record, stage untouched — the error return
carries no successor state); with at least one such attachment it creates a
pending Approval for stage `po_approval` and moves the order to
`po_approval`/`pending_po_approval`. -/
theorem request_po_approval_attachment_gate
    (db : DB) (oid uid : Nat) (role_name : String) (order : Order)
    (hrole : (role_name == "sales_rep" || role_name == "executive") = true)
    (horder : db.findOrder oid = some order)
    (hstage : order.workflow_stage = "waiting_purchase_order") :
    ((db.attachments.filter (fun a =>
        a.entity_type == "order" && a.entity_id == oid)).length = 0 →
      request_po_approval db oid uid role_name = .error .attachmentRequired) ∧
    (0 < (db.attachments.filter (fun a =>
        a.entity_type == "order" && a.entity_id == oid)).length →
      ∃ db', request_po_approval db oid uid role_name = .ok db' ∧
        (∃ a' ∈ db'.approvals, a'.entity_type = "order" ∧ a'.entity_id = oid ∧
          a'.stage = "po_approval" ∧ a'.status = "pending"
            ∧ a'.approver_id = none) ∧
        (∃ o', db'.findOrder oid = some o' ∧
          o'.workflow_stage = "po_approval"
            ∧ o'.status = "pending_po_approval")) := by
  constructor
  · intro hz
    unfold request_po_approval
    rw [if_neg (by simp [hrole])]
    split
    · next heq => rw [horder] at heq; cases heq
    · next o' heq =>
        rw [horder] at heq
        injection heq with heq'
        subst heq'
        rw [hstage]
        simp only [bne_self_eq_false, Bool.false_eq_true, if_false]
        rw [if_pos (beq_iff_eq.mpr hz)]
  · intro hposc
    unfold request_po_approval
    rw [if_neg (by simp [hrole])]
    split
    · next heq => rw [horder] at heq; cases heq
    · next o' heq =>
        rw [horder] at heq
        injection heq with heq'
        subst heq'
        rw [hstage]
        simp only [bne_self_eq_false, Bool.false_eq_true, if_false]
        rw [if_neg (by simp only [beq_iff_eq]; omega)]
        refine ⟨_, rfl, ?_, ?_⟩
        · exact ⟨_, List.mem_append_right _ (List.mem_singleton_self _),
            rfl, rfl, rfl, rfl, rfl⟩
        · refine ⟨_, findOrder_updateOrder_self _ _ _ ?hf _ horder, ?_, ?_⟩
          case hf => intro o; exact add_order_action_id _ _ _
          · rw [add_order_action_workflow_stage]
          · rw [add_order_action_status]

/-- Witness for C8 at a store with exactly one `order`-typed attachment: the
request succeeds, creates the pending PO approval and advances the order. -/
theorem request_po_approval_attachment_gate_witness :
    ((dbWaitingPOWithAttachment.attachments.filter (fun a =>
        a.entity_type == "order" && a.entity_id == 1)).length = 0 →
      request_po_approval dbWaitingPOWithAttachment 1 9 "sales_rep"
        = .error .attachmentRequired) ∧
    (0 < (dbWaitingPOWithAttachment.attachments.filter (fun a =>
        a.entity_type == "order" && a.entity_id == 1)).length →
      ∃ db', request_po_approval dbWaitingPOWithAttachment 1 9 "sales_rep"
          = .ok db' ∧
        (∃ a' ∈ db'.approvals, a'.entity_type = "order" ∧ a'.entity_id = 1 ∧
          a'.stage = "po_approval" ∧ a'.status = "pending"
            ∧ a'.approver_id = none) ∧
        (∃ o', db'.findOrder 1 = some o' ∧
          o'.workflow_stage = "po_approval"
            ∧ o'.status = "pending_po_approval")) :=
  request_po_approval_attachment_gate dbWaitingPOWithAttachment 1 9
    "sales_rep" orderWaitingPO (by decide) (by decide) (by decide)

/-- C9: the generic reject action has no stage guard: on any existing order
whose stage is not `quotation_generated` it succeeds and sends the order
back to stage `decoding` with status `draft` — even from late stages such as
`inventory_check`. -/
theorem reject_order_no_stage_guard
    (db : DB) (oid uid : Nat) (reason : String) (order : Order)
    (horder : db.findOrder oid = some order)
    (hne : order.workflow_stage ≠ "quotation_generated") :
    ∃ db', reject_order db oid uid reason = .ok db' ∧
      ∃ o', db'.findOrder oid = some o' ∧
        o'.workflow_stage = "decoding" ∧ o'.status = "draft" := by
  unfold reject_order
  split
  · next heq => rw [horder] at heq; cases heq
  · next o' heq =>
      rw [horder] at heq
      injection heq with heq'
      subst heq'
      have hb : (order.workflow_stage == "quotation_generated") = false := by
        simp only [beq_eq_false_iff_ne, ne_eq]; exact hne
      rw [if_neg (by simp [hb])]
      cases hp : findPendingApproval db oid with
      | none =>
          simp only [hp]
          refine ⟨_, rfl, ?_⟩
          refine ⟨_, findOrder_updateOrder_self _ _ _ ?hf _
            (findOrder_updateOrder_self _ _ _ ?hg _ horder), ?_, ?_⟩
          case hf => intro o; exact add_order_action_id _ _ _
          case hg => intro o; exact rfl
          · rw [add_order_action_workflow_stage]
          · rw [add_order_action_status]
      | some approval =>
          simp only [hp]
          refine ⟨_, rfl, ?_⟩
          have horder2 : (db.updateApproval approval.id (fun a =>
              { a with approver_id := some uid, status := "rejected",
                       comments := some reason })).findOrder oid
                = some order := horder
          refine ⟨_, findOrder_updateOrder_self _ _ _ ?hf2 _
            (findOrder_updateOrder_self _ _ _ ?hg2 _ horder2), ?_, ?_⟩
          case hf2 => intro o; exact add_order_action_id _ _ _
          case hg2 => intro o; exact rfl
          · rw [add_order_action_workflow_stage]
          · rw [add_order_action_status]

/-- Witness for C9: rejecting an order sitting in the late stage
`inventory_check` succeeds and lands it in `decoding`/`draft`. -/
theorem reject_order_no_stage_guard_witness :
    ∃ db', reject_order dbStock100 1 9 "redo" = .ok db' ∧
      ∃ o', db'.findOrder 1 = some o' ∧
        o'.workflow_stage = "decoding" ∧ o'.status = "draft" :=
  reject_order_no_stage_guard dbStock100 1 9 "redo" orderInvCheck
    (by decide) (by decide)

/-- C10: `is_fully_decoded` holds exactly when the order has at least one
line and every line carries a catalog reference; in particular an order with
zero lines is never fully decoded, and submitting such an order for approval
is rejected (the error return carries no successor state, so the order is
unchanged). -/
theorem is_fully_decoded_iff_and_empty_submit_rejected
    (db : DB) (oid uid : Nat) (order : Order)
    (horder : db.findOrder oid = some order) :
    (is_fully_decoded db oid = true ↔
      (order_items_of db oid ≠ [] ∧
        ∀ it ∈ order_items_of db oid, it.inventory_id ≠ none)) ∧
    (order_items_of db oid = [] →
      submit_order_for_approval db oid uid = .error .notFullyDecoded) := by
  constructor
  · constructor
    · intro h
      unfold is_fully_decoded total_items decoded_items_count at h
      rw [Bool.and_eq_true] at h
      obtain ⟨h1, h2⟩ := h
      constructor
      · exact List.length_pos.mp (of_decide_eq_true h1)
      · intro it hit
        have hlen : ((order_items_of db oid).filter
            (fun oi => oi.inventory_id.isSome)).length
              = (order_items_of db oid).length := beq_iff_eq.mp h2
        have hfe : (order_items_of db oid).filter
            (fun oi => oi.inventory_id.isSome) = order_items_of db oid :=
          (List.filter_sublist _).eq_of_length hlen
        exact Option.isSome_iff_ne_none.mp (List.filter_eq_self.mp hfe it hit)
    · rintro ⟨hne, hall⟩
      unfold is_fully_decoded total_items decoded_items_count
      rw [Bool.and_eq_true]
      refine ⟨decide_eq_true (List.length_pos.mpr hne), ?_⟩
      have hfe : (order_items_of db oid).filter
          (fun oi => oi.inventory_id.isSome) = order_items_of db oid :=
        List.filter_eq_self.mpr
          (fun a ha => Option.isSome_iff_ne_none.mpr (hall a ha))
      rw [hfe]
      simp
  · intro hemp
    unfold submit_order_for_approval
    split
    · next heq => rw [horder] at heq; cases heq
    · next o' heq =>
        have hfd : is_fully_decoded db oid = false := by
          unfold is_fully_decoded total_items
          rw [hemp]
          simp
        rw [if_pos (by simp [hfd])]

/-- Witness for C10: a store whose single order has zero lines — it is not
fully decoded and submit-for-approval is rejected. -/
theorem is_fully_decoded_iff_and_empty_submit_rejected_witness :
    (is_fully_decoded dbNoLines 1 = true ↔
      (order_items_of dbNoLines 1 ≠ [] ∧
        ∀ it ∈ order_items_of dbNoLines 1, it.inventory_id ≠ none)) ∧
    (order_items_of dbNoLines 1 = [] →
      submit_order_for_approval dbNoLines 1 9 = .error .notFullyDecoded) :=
  is_fully_decoded_iff_and_empty_submit_rejected dbNoLines 1 9 orderNoLines
    (by decide)

end PVE
